import Mathlib

/-!
Verification of the request/response pipeline of the Kadal client
(src/kadal/client.py), shallowly embedded in Lean.

JSON bodies are modelled by an inductive `Json` type; Python dictionary and
sequence accesses are modelled by `Except`-valued functions that mirror
Python's exception behaviour (KeyError on a missing key, IndexError on an
out-of-range index, and so on).  Python exceptions are the error type `Exc`;
the class hierarchy KadalError / MediaNotFound of client.py is mirrored by
the tag `KadalClass` inside the `Exc.kadal` constructor, together with the
catch predicates `Exc.isKadalError` and `Exc.isMediaNotFound`.

Coroutines have a single suspension point (the transport round trip), so a
call is modelled as a pure function of a `Transport` oracle mapping the
outgoing request body to the decoded JSON response.
-/

/-- A decoded JSON value.  Objects keep their fields in insertion order, as
Python dictionaries do. -/
inductive Json where
  | null
  | bool (b : Bool)
  | int (n : Int)
  | str (s : String)
  | arr (elems : List Json)
  | obj (fields : List (String × Json))

/-- Python truthiness of a JSON value: None, False, 0, the empty string, the
empty list and the empty dict are falsy; everything else is truthy. -/
def Json.truthy : Json → Bool
  | .null => false
  | .bool b => b
  | .int n => n != 0
  | .str s => s != ""
  | .arr xs => !xs.isEmpty
  | .obj fs => !fs.isEmpty

/-- The Python class of a raised service error: `KadalError` is the base
class, `MediaNotFound` its subclass (client.py lines 11-18). -/
inductive KadalClass where
  | kadalError
  | mediaNotFound

/-- A raised Python exception.  `kadal` covers both service-error classes of
client.py, carrying the message and status stored by KadalError.__init__;
the remaining constructors are the builtin exceptions the pipeline can
raise. -/
inductive Exc where
  | valueError (msg : String)
  | importError (msg : String)
  | keyError (key : String)
  | indexError
  | attributeError
  | typeErr
  | kadal (cls : KadalClass) (message : Json) (status : Json)

/-- Models Python `except KadalError`: true exactly for the two service-error
classes (MediaNotFound is a subclass of KadalError). -/
def Exc.isKadalError : Exc → Bool
  | .kadal _ _ _ => true
  | _ => false

/-- Models Python `except MediaNotFound`. -/
def Exc.isMediaNotFound : Exc → Bool
  | .kadal .mediaNotFound _ _ => true
  | _ => false

/-- `raise KadalError(message, status)` (the generic service error). -/
def KadalError (message status : Json) : Exc := .kadal .kadalError message status

/-- `raise MediaNotFound(message, status)` (the not-found service error). -/
def MediaNotFound (message status : Json) : Exc := .kadal .mediaNotFound message status

/-- Python `d.get(k)`: on a JSON object, the value of `k`, or None when the
key is absent; on any other value, an attribute error. -/
def Json.getAttr : Json → String → Except Exc Json
  | .obj fs, k => .ok ((fs.lookup k).getD .null)
  | _, _ => .error .attributeError

/-- Python `d[k]` on a decoded JSON value: KeyError when the key is absent,
TypeError when the value is not an object. -/
def Json.getItem : Json → String → Except Exc Json
  | .obj fs, k =>
    match fs.lookup k with
    | some v => .ok v
    | none => .error (.keyError k)
  | _, _ => .error .typeErr

/-- Python `xs[i]` on a decoded JSON value: IndexError when out of range,
TypeError when the value is not a sequence. -/
def Json.index : Json → Nat → Except Exc Json
  | .arr xs, i =>
    match xs.get? i with
    | some v => .ok v
    | none => .error .indexError
  | _, _ => .error .typeErr

/-- Iteration over a decoded JSON array, as used by the list comprehension in
custom_paged_search; iterating a non-array value is modelled as a type
error. -/
def Json.elems : Json → Except Exc (List Json)
  | .arr xs => .ok xs
  | _ => .error .typeErr

/-- Python `status == 404` where `status` is a decoded JSON value: only the
integer 404 compares equal. -/
def Json.isStatus404 : Json → Bool
  | .int n => n == 404
  | _ => false

/-- The fixed service endpoint (client.py line 8). -/
def URL : String := "https://graphql.anilist.co"

/-- The vars mapping merged into the GraphQL request body: parameter
name to JSON value, in insertion order. -/
abbrev Vars := List (String × Json)

/-- The JSON body posted to the endpoint by Client._request:
`{"query": query, "variables": vars}`. -/
structure GqlRequest where
  query : String
  vars : Vars

/-- The transport oracle: one POST per call, taking the request body to the
decoded JSON response.  The endpoint is always the fixed `URL`. -/
def Transport := GqlRequest → Json

/-- Modelled from the spec: the query-string templates of kadal/query.py are
not under src/.  The spec treats each as an opaque string; only which
template is sent matters, so each is modelled as a distinct marker string. -/
def MEDIA_BY_ID : String := "MEDIA_BY_ID"

/-- Modelled from the spec: opaque single-media-search query template. -/
def MEDIA_SEARCH : String := "MEDIA_SEARCH"

/-- Modelled from the spec: opaque paged-media-search query template. -/
def MEDIA_PAGED : String := "MEDIA_PAGED"

/-- Modelled from the spec: opaque single-user-by-id query template. -/
def USER_BY_ID : String := "USER_BY_ID"

/-- Modelled from the spec: opaque user-search query template. -/
def USER_SEARCH : String := "USER_SEARCH"

/-- Modelled from the spec: kadal/media.py is not under src/.  Per the spec,
`Media(rawObject, isPagedShape)` is constructed from a sub-object of the
response data, and the shape flag tells the domain object how its input is
nested: with the single-item shape the raw argument is the whole response
and the payload sits under data.Media; with the paged shape the raw argument
is already a paged-list entry.  The domain object records the extracted
sub-object and its shape tag. -/
structure Media where
  payload : Json
  page : Bool

/-- The extraction `response["data"][key]`: the sub-object a single-item
query's payload nests under. -/
def Json.dataSub (r : Json) (key : String) : Except Exc Json := do
  (← r.getItem "data").getItem key

/-- Modelled from the spec: the Media constructor (see `Media`).  With
`page = false` it extracts data.Media from the whole response; with
`page = true` the raw object is used directly. -/
def Media.ofRaw (raw : Json) (page : Bool) : Except Exc Media :=
  if page then .ok { payload := raw, page := true }
  else do
    let sub ← raw.dataSub "Media"
    return { payload := sub, page := false }

/-- Modelled from the spec: kadal/user.py is not under src/.  `User(rawObject)`
is constructed from the data.User sub-object of the whole response. -/
structure User where
  payload : Json

/-- Modelled from the spec: the User constructor (see `User`). -/
def User.ofRaw (raw : Json) : Except Exc User := do
  let sub ← raw.dataSub "User"
  return { payload := sub }

/-- The default session constructed by Client._make_session, or a
caller-supplied one. -/
inductive Session where
  | aiohttp
  | asks
  | custom (tag : String)

/-- Which HTTP libraries are importable in the running environment. -/
structure Env where
  aiohttp : Bool
  asks : Bool

namespace Client

/-- Client._make_session (client.py lines 32-44): for asyncio mode an
aiohttp.ClientSession, otherwise an asks.Session; ImportError when the
required library is not importable. -/
def make_session (env : Env) (lib : String) : Except Exc Session :=
  if lib == "asyncio" then
    if env.aiohttp then .ok .aiohttp
    else .error (.importError "To use Kadal in asyncio mode, it requires the `aiohttp` module.")
  else
    if env.asks then .ok .asks
    else .error (.importError "To use Kadal in curio/trio mode, it requires the `asks` module.")

/-- The state a successfully constructed Client holds: its immutable runtime
mode tag and its session. -/
structure State where
  lib : String
  session : Session

/-- Client.__init__ (client.py lines 22-30): rejects an unsupported lib with
ValueError, then uses the supplied session or constructs a default one bound
to the chosen mode.  The asyncio event-loop default has no observable effect
here and is not modelled. -/
def init (env : Env) (session : Option Session) (lib : String) : Except Exc State :=
  if lib != "asyncio" && lib != "multio" then
    .error (.valueError ("lib must be of type `str` and be either `asyncio` or `multio`, not `"
      ++ lib ++ "`"))
  else do
    let s ← match session with
      | some s => pure s
      | none => make_session env lib
    return { lib := lib, session := s }

/-- Client.handle_error (client.py lines 66-73): reads the message and then
the status of one error entry; status 404 raises MediaNotFound, anything
else raises KadalError, both carrying the entry's message and status. -/
def handle_error (error : Json) : Except Exc Unit := do
  let msg ← error.getItem "message"
  let status ← error.getItem "status"
  if status.isStatus404 then
    throw (MediaNotFound msg status)
  else
    throw (KadalError msg status)

/-- The response-processing half of Client._request (client.py lines 52-54):
if the decoded body has a truthy errors field, classify the first entry and
raise; otherwise return the body unchanged. -/
def request_core (data : Json) : Except Exc Json := do
  let errs ← data.getAttr "errors"
  if errs.truthy then
    handle_error (← (← data.getItem "errors").index 0)
  return data

/-- Client._request (client.py lines 46-54): post the body
`{"query": query, "variables": vars}` and process the decoded
response. -/
def request (t : Transport) (query : String) (vars : Vars) : Except Exc Json :=
  request_core (t { query := query, vars := vars })

/-- The vars sent by Client._paged_request: page and perPage are
injected ahead of the caller-supplied vars (client.py line 60). -/
def paged_vars (page perPage : Json) (vars : Vars) : Vars :=
  ("page", page) :: ("perPage", perPage) :: vars

/-- The extraction `data["data"]["Page"]["media"]` (client.py line 61). -/
def pagedMedia (data : Json) : Except Exc Json := do
  (← data.dataSub "Page").getItem "media"

/-- Client._paged_request (client.py lines 56-64): dispatch the paged-media
query with page and perPage injected, extract data.Page.media, raise
MediaNotFound("Not Found.", 404) when it is falsy, and return it as-is. -/
def paged_request (t : Transport) (page perPage : Json) (vars : Vars) :
    Except Exc Json := do
  let data ← request t MEDIA_PAGED (paged_vars page perPage vars)
  let lst ← pagedMedia data
  if !lst.truthy then
    throw (MediaNotFound (.str "Not Found.") (.int 404))
  return lst

/-- Client.get_anime (client.py lines 75-77): single-item dispatch by id with
the ANIME type filter, wrapped as a single-item-shape Media. -/
def get_anime (t : Transport) (id : Json) : Except Exc Media := do
  let data ← request t MEDIA_BY_ID [("id", id), ("type", .str "ANIME")]
  Media.ofRaw data false

/-- Client.get_manga (client.py lines 79-81). -/
def get_manga (t : Transport) (id : Json) : Except Exc Media := do
  let data ← request t MEDIA_BY_ID [("id", id), ("type", .str "MANGA")]
  Media.ofRaw data false

/-- Client.get_user (client.py lines 83-85). -/
def get_user (t : Transport) (id : Json) : Except Exc User := do
  let data ← request t USER_BY_ID [("id", id)]
  User.ofRaw data

/-- Client.custom_paged_search (client.py lines 87-88): paged dispatch with
caller-supplied vars; every raw entry is wrapped as a paged-shape
Media, preserving order. -/
def custom_paged_search (t : Transport) (page perPage : Json) (vars : Vars) :
    Except Exc (List Media) := do
  let lst ← paged_request t page perPage vars
  let entries ← lst.elems
  entries.mapM (fun d => Media.ofRaw d true)

/-- The vars dict built by Client.search_anime (client.py lines 91-96):
search and type, plus isAdult=false unless allow_adult. -/
def search_anime_vars (query : Json) (allow_adult : Bool) : Vars :=
  [("search", query), ("type", .str "ANIME")]
    ++ (if allow_adult then [] else [("isAdult", .bool false)])

/-- Client.search_anime (client.py lines 90-102): with popularity, a paged
dispatch (default page=1, perPage=50) taking the first entry; otherwise a
single-item dispatch; the Media shape tag is the popularity flag. -/
def search_anime (t : Transport) (query : Json) (popularity allow_adult : Bool) :
    Except Exc Media := do
  let vars := search_anime_vars query allow_adult
  let data ←
    if popularity then
      (← paged_request t (.int 1) (.int 50) vars).index 0
    else
      request t MEDIA_SEARCH vars
  Media.ofRaw data popularity

/-- The vars dict built by Client.search_manga (client.py lines 105-112):
search, type, exclude ("NOVEL" unless include_novels, else None), plus
isAdult=false unless allow_adult. -/
def search_manga_vars (query : Json) (include_novels allow_adult : Bool) : Vars :=
  [("search", query), ("type", .str "MANGA"),
    ("exclude", if include_novels then Json.null else .str "NOVEL")]
    ++ (if allow_adult then [] else [("isAdult", .bool false)])

/-- Client.search_manga (client.py lines 104-118). -/
def search_manga (t : Transport) (query : Json)
    (popularity include_novels allow_adult : Bool) : Except Exc Media := do
  let vars := search_manga_vars query include_novels allow_adult
  let data ←
    if popularity then
      (← paged_request t (.int 1) (.int 50) vars).index 0
    else
      request t MEDIA_SEARCH vars
  Media.ofRaw data popularity

/-- Client.search_user (client.py lines 120-122). -/
def search_user (t : Transport) (query : Json) : Except Exc User := do
  let data ← request t USER_SEARCH [("search", query)]
  User.ofRaw data

end Client

/-! ## Response-shape predicates and pipeline lemmas -/

/-- A response whose errors field is absent, None, or otherwise falsy: the
pipeline handles it as a success. -/
def noServiceErrors (r : Json) : Prop :=
  ∃ e, r.getAttr "errors" = .ok e ∧ e.truthy = false

/-- A success-shaped paged response whose data.Page.media is the given
sequence. -/
def pagedResponseWith (r : Json) (media : List Json) : Prop :=
  noServiceErrors r ∧ Client.pagedMedia r = .ok (.arr media)

lemma Json.isStatus404_iff (s : Json) : s.isStatus404 = true ↔ s = Json.int 404 := by
  cases s <;> simp [Json.isStatus404]

lemma Client.request_core_ok (r : Json) (h : noServiceErrors r) :
    Client.request_core r = .ok r := by
  obtain ⟨e, h1, h2⟩ := h
  simp [Client.request_core, h1, h2, bind, Except.bind, pure, Except.pure]

lemma Client.request_core_classify (fields : List (String × Json)) (e0 : Json)
    (rest : List Json) (m s : Json)
    (herrs : fields.lookup "errors" = some (.arr (e0 :: rest)))
    (hm : e0.getItem "message" = .ok m)
    (hs : e0.getItem "status" = .ok s) :
    Client.request_core (.obj fields) =
      .error (if s.isStatus404 then MediaNotFound m s else KadalError m s) := by
  have herrs2 : (Json.obj fields).getItem "errors" = .ok (.arr (e0 :: rest)) := by
    simp [Json.getItem, herrs]
  by_cases h404 : s.isStatus404 <;>
    simp [Client.request_core, Client.handle_error, Json.getAttr, Json.index,
      herrs, herrs2, hm, hs, h404, Json.truthy, bind, Except.bind, pure, Except.pure,
      throw, throwThe, MonadExceptOf.throw]

lemma Client.paged_request_of_media (t : Transport) (page perPage : Json) (v : Vars)
    (media : List Json)
    (h : pagedResponseWith (t { query := MEDIA_PAGED, vars := Client.paged_vars page perPage v })
      media) :
    Client.paged_request t page perPage v =
      if media.isEmpty then .error (MediaNotFound (.str "Not Found.") (.int 404))
      else .ok (.arr media) := by
  obtain ⟨hok, hmedia⟩ := h
  have hcore := Client.request_core_ok _ hok
  cases media <;>
    simp [Client.paged_request, Client.request, hcore, hmedia, Json.truthy,
      bind, Except.bind, pure, Except.pure, throw, throwThe, MonadExceptOf.throw]

/-- A success-shaped single-item response whose data.<key> sub-object is
`sub`. -/
def singleResponseWith (r : Json) (key : String) (sub : Json) : Prop :=
  noServiceErrors r ∧ r.dataSub key = .ok sub

lemma Client.request_eq_core (t : Transport) (q : String) (v : Vars) (r : Json)
    (hresp : t { query := q, vars := v } = r) :
    Client.request t q v = Client.request_core r := by
  rw [Client.request, hresp]

/-! ## C1 -/

/-- C1: for every response whose errors array is non-empty (here, with first
entry `e0` carrying message `m` and status `s`), the pipeline classifies only
that first entry and raises immediately: status 404 raises MediaNotFound
(the NotFoundError) carrying the entry's message, and any other status
raises KadalError (the GenericServiceError) carrying the entry's message and
status.  No value is returned, and the remaining entries `rest` are
universally quantified, so they never influence the outcome. -/
theorem request_raises_on_first_error_entry
    (t : Transport) (q : String) (v : Vars) (fields : List (String × Json))
    (e0 : Json) (rest : List Json) (m s : Json)
    (hresp : t { query := q, vars := v } = .obj fields)
    (herrs : fields.lookup "errors" = some (.arr (e0 :: rest)))
    (hm : e0.getItem "message" = .ok m)
    (hs : e0.getItem "status" = .ok s) :
    (s = Json.int 404 → Client.request t q v = .error (MediaNotFound m s)) ∧
    (s ≠ Json.int 404 → Client.request t q v = .error (KadalError m s)) := by
  have hcore := Client.request_core_classify fields e0 rest m s herrs hm hs
  have hreq := Client.request_eq_core t q v _ hresp
  constructor
  · intro h404
    rw [hreq, hcore, if_pos ((Json.isStatus404_iff s).mpr h404)]
  · intro h404
    rw [hreq, hcore, if_neg (fun hc => h404 ((Json.isStatus404_iff s).mp hc))]

/-- The concrete response used to witness C1: two error entries, the first
with status 500, the second with status 404 (and so ignored). -/
def respC1 : Json :=
  .obj [("errors", .arr
    [.obj [("message", .str "boom"), ("status", .int 500)],
     .obj [("message", .str "ignored"), ("status", .int 404)]])]

/-- The stub transport used to witness C1. -/
def tC1 : Transport := fun _ => respC1

theorem request_raises_on_first_error_entry_witness :
    Client.request tC1 "q" [] = .error (KadalError (.str "boom") (.int 500)) :=
  (request_raises_on_first_error_entry tC1 "q" []
    [("errors", .arr
      [.obj [("message", .str "boom"), ("status", .int 500)],
       .obj [("message", .str "ignored"), ("status", .int 404)]])]
    (.obj [("message", .str "boom"), ("status", .int 500)])
    [.obj [("message", .str "ignored"), ("status", .int 404)]]
    (.str "boom") (.int 500) rfl rfl rfl rfl).2 (by simp)

/-! ## C2 -/

/-- C2: every paged dispatch — _paged_request itself, custom_paged_search,
and search_anime / search_manga with popularity=true — whose response has
data.Page.media equal to the empty sequence fails with MediaNotFound (the
NotFoundError), whatever the caller-supplied variables `v` (and search
parameters) are; no sequence is returned. -/
theorem paged_dispatch_empty_media_not_found
    (t : Transport) (page perPage : Json) (v : Vars) (sq : Json) (inov aa : Bool)
    (h1 : pagedResponseWith
      (t { query := MEDIA_PAGED, vars := Client.paged_vars page perPage v }) [])
    (h2 : pagedResponseWith
      (t { query := MEDIA_PAGED,
           vars := Client.paged_vars (.int 1) (.int 50) (Client.search_anime_vars sq aa) }) [])
    (h3 : pagedResponseWith
      (t { query := MEDIA_PAGED,
           vars := Client.paged_vars (.int 1) (.int 50)
             (Client.search_manga_vars sq inov aa) }) []) :
    Client.paged_request t page perPage v
        = .error (MediaNotFound (.str "Not Found.") (.int 404)) ∧
    Client.custom_paged_search t page perPage v
        = .error (MediaNotFound (.str "Not Found.") (.int 404)) ∧
    Client.search_anime t sq true aa
        = .error (MediaNotFound (.str "Not Found.") (.int 404)) ∧
    Client.search_manga t sq true inov aa
        = .error (MediaNotFound (.str "Not Found.") (.int 404)) := by
  have hp1 := Client.paged_request_of_media t page perPage v [] h1
  have hp2 := Client.paged_request_of_media t (.int 1) (.int 50)
    (Client.search_anime_vars sq aa) [] h2
  have hp3 := Client.paged_request_of_media t (.int 1) (.int 50)
    (Client.search_manga_vars sq inov aa) [] h3
  simp only [List.isEmpty_nil, if_pos] at hp1 hp2 hp3
  refine ⟨hp1, ?_, ?_, ?_⟩
  · simp [Client.custom_paged_search, hp1, bind, Except.bind]
  · simp [Client.search_anime, hp2, bind, Except.bind]
  · simp [Client.search_manga, hp3, bind, Except.bind]

/-- The concrete response used to witness C2: a success-shaped paged body
with an empty media sequence. -/
def respC2 : Json := .obj [("data", .obj [("Page", .obj [("media", .arr [])])])]

/-- The stub transport used to witness C2. -/
def tC2 : Transport := fun _ => respC2

theorem paged_dispatch_empty_media_not_found_witness :
    Client.custom_paged_search tC2 (.int 1) (.int 2) [("type", .str "ANIME")]
      = .error (MediaNotFound (.str "Not Found.") (.int 404)) :=
  (paged_dispatch_empty_media_not_found tC2 (.int 1) (.int 2) [("type", .str "ANIME")]
    (.str "naruto") false false
    ⟨⟨.null, rfl, rfl⟩, rfl⟩ ⟨⟨.null, rfl, rfl⟩, rfl⟩ ⟨⟨.null, rfl, rfl⟩, rfl⟩).2.1

/-! ## C3 -/

/-- C3: for every valid single-item query whose response carries a non-null
data.<Key> sub-object (Media for get_anime / get_manga, User for get_user),
the public method returns a domain object built from exactly that sub-object
— not the whole response — with the single-item shape tag (page = false for
Media). -/
theorem get_methods_return_single_item_sub_object
    (t : Transport) (id subA subM subU : Json)
    (hA : singleResponseWith
      (t { query := MEDIA_BY_ID, vars := [("id", id), ("type", .str "ANIME")] }) "Media" subA)
    (_hAn : subA ≠ .null)
    (hM : singleResponseWith
      (t { query := MEDIA_BY_ID, vars := [("id", id), ("type", .str "MANGA")] }) "Media" subM)
    (_hMn : subM ≠ .null)
    (hU : singleResponseWith
      (t { query := USER_BY_ID, vars := [("id", id)] }) "User" subU)
    (_hUn : subU ≠ .null) :
    Client.get_anime t id = .ok { payload := subA, page := false } ∧
    Client.get_manga t id = .ok { payload := subM, page := false } ∧
    Client.get_user t id = .ok { payload := subU } := by
  obtain ⟨hAe, hAsub⟩ := hA
  obtain ⟨hMe, hMsub⟩ := hM
  obtain ⟨hUe, hUsub⟩ := hU
  refine ⟨?_, ?_, ?_⟩
  · have hreq := Client.request_eq_core t MEDIA_BY_ID [("id", id), ("type", .str "ANIME")] _ rfl
    rw [Client.get_anime, hreq, Client.request_core_ok _ hAe]
    simp [Media.ofRaw, hAsub, bind, Except.bind, pure, Except.pure]
  · have hreq := Client.request_eq_core t MEDIA_BY_ID [("id", id), ("type", .str "MANGA")] _ rfl
    rw [Client.get_manga, hreq, Client.request_core_ok _ hMe]
    simp [Media.ofRaw, hMsub, bind, Except.bind, pure, Except.pure]
  · have hreq := Client.request_eq_core t USER_BY_ID [("id", id)] _ rfl
    rw [Client.get_user, hreq, Client.request_core_ok _ hUe]
    simp [User.ofRaw, hUsub, bind, Except.bind, pure, Except.pure]

/-- The stub transport used to witness C3: a user body for the user query,
a media body for the media queries. -/
def tC3 : Transport := fun req =>
  if req.query = USER_BY_ID then
    .obj [("data", .obj [("User", .obj [("id", .int 7)])])]
  else
    .obj [("data", .obj [("Media", .obj [("id", .int 1), ("title", .str "X")])])]

theorem get_methods_return_single_item_sub_object_witness :
    Client.get_anime tC3 (.int 1)
      = .ok { payload := .obj [("id", .int 1), ("title", .str "X")], page := false } ∧
    Client.get_user tC3 (.int 1)
      = .ok { payload := .obj [("id", .int 7)] } :=
  have h := get_methods_return_single_item_sub_object tC3 (.int 1)
    (.obj [("id", .int 1), ("title", .str "X")])
    (.obj [("id", .int 1), ("title", .str "X")])
    (.obj [("id", .int 7)])
    ⟨⟨.null, rfl, rfl⟩, rfl⟩ (by simp)
    ⟨⟨.null, rfl, rfl⟩, rfl⟩ (by simp)
    ⟨⟨.null, rfl, rfl⟩, rfl⟩ (by simp)
  ⟨h.1, h.2.2⟩

/-! ## C4 -/

lemma Media.mapM_loop_ofRaw_paged (xs : List Json) (acc : List Media) :
    List.mapM.loop (fun d => Media.ofRaw d true) xs acc
      = .ok (acc.reverse ++ xs.map fun d => { payload := d, page := true }) := by
  induction xs generalizing acc with
  | nil => simp [List.mapM.loop, pure, Except.pure]
  | cons x xs ih =>
    have hx : Media.ofRaw x true = .ok { payload := x, page := true } := rfl
    rw [List.mapM.loop, hx]
    simp only [bind, Except.bind]
    rw [ih]
    simp

lemma Media.mapM_ofRaw_paged (xs : List Json) :
    xs.mapM (fun d => Media.ofRaw d true)
      = .ok (xs.map fun d => { payload := d, page := true }) := by
  simp [List.mapM, Media.mapM_loop_ofRaw_paged]

/-- C4: for every paged response whose data.Page.media has at least one
entry, custom_paged_search returns the list of Media objects obtained by
wrapping each raw entry in order with the paged shape tag — so the result
has the same length and order as data.Page.media, and every element is
paged-shape. -/
theorem custom_paged_search_maps_entries_in_order
    (t : Transport) (page perPage : Json) (v : Vars) (x : Json) (xs : List Json)
    (h : pagedResponseWith
      (t { query := MEDIA_PAGED, vars := Client.paged_vars page perPage v }) (x :: xs)) :
    Client.custom_paged_search t page perPage v
      = .ok ((x :: xs).map fun d => { payload := d, page := true }) := by
  have hp := Client.paged_request_of_media t page perPage v (x :: xs) h
  simp only [List.isEmpty_cons, Bool.false_eq_true, if_false] at hp
  simp [Client.custom_paged_search, hp, Json.elems, Media.mapM_ofRaw_paged,
    Media.mapM_loop_ofRaw_paged, bind, Except.bind, pure, Except.pure]

/-- The stub transport used to witness C4: two media entries. -/
def tC4 : Transport := fun _ =>
  .obj [("data", .obj [("Page", .obj
    [("media", .arr [.obj [("id", .int 1)], .obj [("id", .int 2)]])])])]

theorem custom_paged_search_maps_entries_in_order_witness :
    Client.custom_paged_search tC4 (.int 1) (.int 2) [("type", .str "ANIME")]
      = .ok [{ payload := .obj [("id", .int 1)], page := true },
             { payload := .obj [("id", .int 2)], page := true }] :=
  custom_paged_search_maps_entries_in_order tC4 (.int 1) (.int 2) [("type", .str "ANIME")]
    (.obj [("id", .int 1)]) [.obj [("id", .int 2)]] ⟨⟨.null, rfl, rfl⟩, rfl⟩

/-! ## C5 -/

/-- C5: a search_anime or search_manga call with popularity=true whose paged
response has at least one media entry returns exactly the first entry of the
sequence wrapped as a paged-shape Media; with popularity=false the call is a
plain single-item dispatch and the returned Media carries the single-item
shape tag. -/
theorem search_popularity_selects_first_and_shape
    (t : Transport) (sq : Json) (aa inov : Bool)
    (xa xm suba subm : Json) (xsa xsm : List Json)
    (hpa : pagedResponseWith
      (t { query := MEDIA_PAGED,
           vars := Client.paged_vars (.int 1) (.int 50) (Client.search_anime_vars sq aa) })
      (xa :: xsa))
    (hpm : pagedResponseWith
      (t { query := MEDIA_PAGED,
           vars := Client.paged_vars (.int 1) (.int 50)
             (Client.search_manga_vars sq inov aa) })
      (xm :: xsm))
    (hsa : singleResponseWith
      (t { query := MEDIA_SEARCH, vars := Client.search_anime_vars sq aa }) "Media" suba)
    (hsm : singleResponseWith
      (t { query := MEDIA_SEARCH, vars := Client.search_manga_vars sq inov aa })
      "Media" subm) :
    Client.search_anime t sq true aa = .ok { payload := xa, page := true } ∧
    Client.search_manga t sq true inov aa = .ok { payload := xm, page := true } ∧
    Client.search_anime t sq false aa = .ok { payload := suba, page := false } ∧
    Client.search_manga t sq false inov aa = .ok { payload := subm, page := false } := by
  have hp1 := Client.paged_request_of_media t (.int 1) (.int 50)
    (Client.search_anime_vars sq aa) (xa :: xsa) hpa
  have hp2 := Client.paged_request_of_media t (.int 1) (.int 50)
    (Client.search_manga_vars sq inov aa) (xm :: xsm) hpm
  simp only [List.isEmpty_cons, Bool.false_eq_true, if_false] at hp1 hp2
  obtain ⟨hae, hasub⟩ := hsa
  obtain ⟨hme, hmsub⟩ := hsm
  refine ⟨?_, ?_, ?_, ?_⟩
  · simp [Client.search_anime, hp1, Json.index, Media.ofRaw,
      bind, Except.bind, pure, Except.pure]
  · simp [Client.search_manga, hp2, Json.index, Media.ofRaw,
      bind, Except.bind, pure, Except.pure]
  · have hreq := Client.request_eq_core t MEDIA_SEARCH (Client.search_anime_vars sq aa) _ rfl
    rw [Client.search_anime]
    simp only [if_false, Bool.false_eq_true]
    rw [hreq, Client.request_core_ok _ hae]
    simp [Media.ofRaw, hasub, bind, Except.bind, pure, Except.pure]
  · have hreq := Client.request_eq_core t MEDIA_SEARCH
      (Client.search_manga_vars sq inov aa) _ rfl
    rw [Client.search_manga]
    simp only [if_false, Bool.false_eq_true]
    rw [hreq, Client.request_core_ok _ hme]
    simp [Media.ofRaw, hmsub, bind, Except.bind, pure, Except.pure]

/-- The stub transport used to witness C5: a two-entry paged body for the
paged query, a single-item body for the search query. -/
def tC5 : Transport := fun req =>
  if req.query = MEDIA_PAGED then
    .obj [("data", .obj [("Page", .obj
      [("media", .arr [.obj [("id", .int 1)], .obj [("id", .int 2)]])])])]
  else
    .obj [("data", .obj [("Media", .obj [("id", .int 3)])])]

theorem search_popularity_selects_first_and_shape_witness :
    Client.search_anime tC5 (.str "naruto") true false
      = .ok { payload := .obj [("id", .int 1)], page := true } ∧
    Client.search_manga tC5 (.str "naruto") false false false
      = .ok { payload := .obj [("id", .int 3)], page := false } :=
  have h := search_popularity_selects_first_and_shape tC5 (.str "naruto") false false
    (.obj [("id", .int 1)]) (.obj [("id", .int 1)])
    (.obj [("id", .int 3)]) (.obj [("id", .int 3)])
    [.obj [("id", .int 2)]] [.obj [("id", .int 2)]]
    ⟨⟨.null, rfl, rfl⟩, rfl⟩ ⟨⟨.null, rfl, rfl⟩, rfl⟩
    ⟨⟨.null, rfl, rfl⟩, rfl⟩ ⟨⟨.null, rfl, rfl⟩, rfl⟩
  ⟨h.1, h.2.2.2⟩

/-! ## C6 -/

/-- C6: for every search_anime or search_manga call with allow_adult=false
(the default) the outgoing variables map carries the entry isAdult: false,
and with allow_adult=true the isAdult key is entirely absent — in both the
single-item branch (the variables dict built by the method) and the paged
branch (the same dict with page and perPage injected by _paged_request). -/
theorem search_vars_isAdult_injection (sq page perPage : Json) (inov : Bool) :
    (Client.search_anime_vars sq false).lookup "isAdult" = some (.bool false) ∧
    (Client.search_anime_vars sq true).lookup "isAdult" = none ∧
    (Client.search_manga_vars sq inov false).lookup "isAdult" = some (.bool false) ∧
    (Client.search_manga_vars sq inov true).lookup "isAdult" = none ∧
    (Client.paged_vars page perPage (Client.search_anime_vars sq false)).lookup "isAdult"
        = some (.bool false) ∧
    (Client.paged_vars page perPage (Client.search_anime_vars sq true)).lookup "isAdult"
        = none ∧
    (Client.paged_vars page perPage (Client.search_manga_vars sq inov false)).lookup "isAdult"
        = some (.bool false) ∧
    (Client.paged_vars page perPage (Client.search_manga_vars sq inov true)).lookup "isAdult"
        = none := by
  cases inov <;>
    simp [Client.search_anime_vars, Client.search_manga_vars, Client.paged_vars, List.lookup]

/-! ## C7 -/

/-- C7: for every search_manga call with include_novels=false (the default)
the outgoing variables map carries exclude: "NOVEL"; with
include_novels=true the exclude variable is null (it is present, set to
None) — again in both the single-item and the paged (page/perPage-injected)
variables. -/
theorem search_manga_vars_exclude_novels (sq page perPage : Json) (aa : Bool) :
    (Client.search_manga_vars sq false aa).lookup "exclude" = some (.str "NOVEL") ∧
    ((Client.search_manga_vars sq true aa).lookup "exclude" = some Json.null ∨
      (Client.search_manga_vars sq true aa).lookup "exclude" = none) ∧
    (Client.paged_vars page perPage (Client.search_manga_vars sq false aa)).lookup "exclude"
        = some (.str "NOVEL") ∧
    ((Client.paged_vars page perPage (Client.search_manga_vars sq true aa)).lookup "exclude"
        = some Json.null ∨
      (Client.paged_vars page perPage (Client.search_manga_vars sq true aa)).lookup "exclude"
        = none) := by
  refine ⟨?_, Or.inl ?_, ?_, Or.inl ?_⟩ <;>
    simp [Client.search_manga_vars, Client.paged_vars, List.lookup]

/-! ## C8 -/

/-- C8: Client construction is a pure, synchronous function that fails with
the unsupported-runtime configuration error (ValueError) whenever lib is
outside the supported set, and — distinctly — with the missing-dependency
configuration error (ImportError) when the HTTP library the chosen mode
needs is not importable; when no session is supplied and construction
succeeds, the session is the default one bound to the chosen mode. -/
theorem client_init_configuration_errors (env : Env) (sess : Option Session) (lib : String) :
    (lib ≠ "asyncio" → lib ≠ "multio" →
      Client.init env sess lib = .error (.valueError
        ("lib must be of type `str` and be either `asyncio` or `multio`, not `"
          ++ lib ++ "`"))) ∧
    (env.aiohttp = false →
      Client.init env none "asyncio" = .error (.importError
        "To use Kadal in asyncio mode, it requires the `aiohttp` module.")) ∧
    (env.asks = false →
      Client.init env none "multio" = .error (.importError
        "To use Kadal in curio/trio mode, it requires the `asks` module.")) ∧
    (∀ m1 m2 : String, Exc.valueError m1 ≠ Exc.importError m2) ∧
    (env.aiohttp = true →
      Client.init env none "asyncio" = .ok { lib := "asyncio", session := .aiohttp }) ∧
    (env.asks = true →
      Client.init env none "multio" = .ok { lib := "multio", session := .asks }) := by
  refine ⟨?_, ?_, ?_, ?_, ?_, ?_⟩
  · intro h1 h2
    have hc : (lib != "asyncio" && lib != "multio") = true := by
      simp [bne, beq_eq_false_iff_ne.mpr h1, beq_eq_false_iff_ne.mpr h2]
    rw [Client.init, if_pos hc]
  · intro h
    simp [Client.init, Client.make_session, h, bind, Except.bind, pure, Except.pure]
  · intro h
    simp [Client.init, Client.make_session, h, bind, Except.bind, pure, Except.pure]
  · intro m1 m2 h
    cases h
  · intro h
    simp [Client.init, Client.make_session, h, bind, Except.bind, pure, Except.pure]
  · intro h
    simp [Client.init, Client.make_session, h, bind, Except.bind, pure, Except.pure]

theorem client_init_configuration_errors_witness :
    Client.init { aiohttp := false, asks := true } none "curio"
      = .error (.valueError
        "lib must be of type `str` and be either `asyncio` or `multio`, not `curio`") ∧
    Client.init { aiohttp := false, asks := true } none "asyncio"
      = .error (.importError
        "To use Kadal in asyncio mode, it requires the `aiohttp` module.") ∧
    Client.init { aiohttp := false, asks := true } none "multio"
      = .ok { lib := "multio", session := .asks } :=
  ⟨(client_init_configuration_errors { aiohttp := false, asks := true } none "curio").1
      (by decide) (by decide),
   (client_init_configuration_errors { aiohttp := false, asks := true } none "asyncio").2.1 rfl,
   (client_init_configuration_errors
      { aiohttp := false, asks := true } none "multio").2.2.2.2.2 rfl⟩

/-! ## C9 -/

/-- The concrete response used for C9: a non-empty errors array whose first
entry has a message but no status field. -/
def respC9 : Json := .obj [("errors", .arr [.obj [("message", .str "boom")]])]

/-- The stub transport used for C9. -/
def tC9 : Transport := fun _ => respC9

/-- C9 counterexample: on a response whose first error entry has no status
field the call does NOT fail with the generic service error — handle_error
reads error["status"] unconditionally, so the call fails with
KeyError("status"), an unclassified exception caught neither by
KadalError nor by MediaNotFound. -/
theorem missing_status_counterexample :
    Client.request tC9 "q" [] = .error (.keyError "status") ∧
    (Exc.keyError "status").isKadalError = false ∧
    (Exc.keyError "status").isMediaNotFound = false := by
  refine ⟨?_, rfl, rfl⟩
  simp [Client.request, Client.request_core, Client.handle_error, tC9, respC9,
    Json.getAttr, Json.getItem, Json.index, Json.truthy, List.lookup,
    bind, Except.bind, pure, Except.pure]

/-- C9 (amended): for every response whose errors array is non-empty and
whose first error entry carries a message but no status field, the call
fails with the unclassified key-lookup exception KeyError("status") — not
with the generic service error and not with the not-found error. -/
theorem missing_status_raises_key_lookup_error
    (t : Transport) (q : String) (v : Vars) (fields efields : List (String × Json))
    (rest : List Json) (m : Json)
    (hresp : t { query := q, vars := v } = .obj fields)
    (herrs : fields.lookup "errors" = some (.arr (.obj efields :: rest)))
    (hm : efields.lookup "message" = some m)
    (hs : efields.lookup "status" = none) :
    Client.request t q v = .error (.keyError "status") := by
  have hreq := Client.request_eq_core t q v _ hresp
  rw [hreq]
  simp [Client.request_core, Client.handle_error, Json.getAttr, Json.getItem, Json.index,
    herrs, hm, hs, Json.truthy, bind, Except.bind, pure, Except.pure]

theorem missing_status_raises_key_lookup_error_witness :
    Client.request tC9 "query string" [("id", .int 1)] = .error (.keyError "status") :=
  missing_status_raises_key_lookup_error tC9 "query string" [("id", .int 1)]
    [("errors", .arr [.obj [("message", .str "boom")]])]
    [("message", .str "boom")] [] (.str "boom") rfl rfl rfl rfl

/-! ## C10 -/

/-- C10: a paged dispatch failing on empty data.Page.media raises the exact
error value MediaNotFound with message "Not Found." and status 404 — the
same error value, by class, message and status, that the pipeline raises
when the service itself reports a status-404 error with that message — and
MediaNotFound is caught by the KadalError (generic service error) catch
predicate, modelling its subclass relation. -/
theorem paged_empty_indistinguishable_from_service_404
    (t : Transport) (page perPage : Json) (v : Vars)
    (h : pagedResponseWith
      (t { query := MEDIA_PAGED, vars := Client.paged_vars page perPage v }) []) :
    Client.paged_request t page perPage v
        = .error (MediaNotFound (.str "Not Found.") (.int 404)) ∧
    (∀ (t2 : Transport) (q2 : String) (v2 : Vars) (fields : List (String × Json))
        (rest : List Json),
      t2 { query := q2, vars := v2 } = .obj fields →
      fields.lookup "errors" = some (.arr
        (.obj [("message", .str "Not Found."), ("status", .int 404)] :: rest)) →
      Client.request t2 q2 v2 = .error (MediaNotFound (.str "Not Found.") (.int 404))) ∧
    (MediaNotFound (.str "Not Found.") (.int 404)).isKadalError = true ∧
    (∀ m s : Json, (MediaNotFound m s).isKadalError = true) := by
  refine ⟨?_, ?_, rfl, fun m s => rfl⟩
  · have hp := Client.paged_request_of_media t page perPage v [] h
    simpa using hp
  · intro t2 q2 v2 fields rest hresp herrs
    have hcore := Client.request_core_classify fields
      (.obj [("message", .str "Not Found."), ("status", .int 404)]) rest
      (.str "Not Found.") (.int 404) herrs (by simp [Json.getItem, List.lookup])
      (by simp [Json.getItem, List.lookup])
    rw [Client.request_eq_core t2 q2 v2 _ hresp, hcore, if_pos (by rfl)]

/-- The stub transport used to witness C10: an empty paged body. -/
def tC10 : Transport := fun _ =>
  .obj [("data", .obj [("Page", .obj [("media", .arr [])])])]

/-- The stub transport used to witness the service-reported-404 half of
C10. -/
def tC10b : Transport := fun _ =>
  .obj [("errors", .arr [.obj [("message", .str "Not Found."), ("status", .int 404)]])]

theorem paged_empty_indistinguishable_from_service_404_witness :
    Client.paged_request tC10 (.int 1) (.int 50) [("type", .str "ANIME")]
        = .error (MediaNotFound (.str "Not Found.") (.int 404)) ∧
    Client.request tC10b "q" [] = .error (MediaNotFound (.str "Not Found.") (.int 404)) ∧
    (MediaNotFound (.str "Not Found.") (.int 404)).isKadalError = true :=
  have h := paged_empty_indistinguishable_from_service_404 tC10 (.int 1) (.int 50)
    [("type", .str "ANIME")] ⟨⟨.null, rfl, rfl⟩, rfl⟩
  ⟨h.1,
   h.2.1 tC10b "q" []
     [("errors", .arr [.obj [("message", .str "Not Found."), ("status", .int 404)]])]
     [] rfl rfl,
   h.2.2.1⟩
